import Mathlib

/-!
Verification of the Hall_9000 repository (a Next.js chat assistant).

The development shallowly embeds the two source files:

* `src/app/api/chat/route.ts` — the `POST /api/chat` handler: it validates
  the request body, prepends a fixed system prompt, issues a streaming
  chat-completion request, reassembles provider chunks into a list of SSE
  events (`content`, `tool_start`, `done`, `error`), dispatches model tool
  calls to the four query helpers imported from the database client module
  plus a local `getCurrentDateTime`, and makes a follow-up completion
  request carrying JSON-serialized tool results.

* `src/unnamed/part_000` — the `POST /api/stt` handler (two variants) that
  forwards a recorded audio blob to the Deepgram transcription API, and
  the browser chat UI.

External services (the chat-completion provider, the database helpers,
JSON.parse, the Deepgram API) are modelled as oracles supplied through
environment structures; every handler itself is a computable function of
the request and those oracles, so each theorem can be evaluated on
concrete inputs.
-/

namespace Hall9000

/-! ## A small JSON value model (for tool arguments and tool results) -/

inductive Json where
  | null
  | bool (b : Bool)
  | num (n : Int)
  | str (s : String)
  | arr (elems : List Json)
  | obj (fields : List (String × Json))

mutual

/-- Model of `JSON.stringify` applied to a tool result
(route.ts line 650).  Escaping of special characters inside string
payloads is omitted; no claim depends on the rendered text. -/
def jsonStringify : Json → String
  | Json.null => "null"
  | Json.bool true => "true"
  | Json.bool false => "false"
  | Json.num n => toString n
  | Json.str s => "\"" ++ s ++ "\""
  | Json.arr elems => "[" ++ jsonStringifyList elems ++ "]"
  | Json.obj fields => "\x7b" ++ jsonStringifyFields fields ++ "\x7d"

def jsonStringifyList : List Json → String
  | [] => ""
  | [x] => jsonStringify x
  | x :: y :: rest => jsonStringify x ++ "," ++ jsonStringifyList (y :: rest)

def jsonStringifyFields : List (String × Json) → String
  | [] => ""
  | [(k, v)] => "\"" ++ k ++ "\":" ++ jsonStringify v
  | (k, v) :: f :: rest =>
      "\"" ++ k ++ "\":" ++ jsonStringify v ++ "," ++ jsonStringifyFields (f :: rest)

end

/-- Property access `args.key` on a parsed JSON value: a field of an
object, `undefined` (here `none`) otherwise. -/
def jget (j : Json) (key : String) : Option Json :=
  match j with
  | Json.obj fields => (fields.find? (fun kv => kv.1 == key)).map (fun kv => kv.2)
  | _ => none

/-! ## Messages and tool calls (route.ts lines 363-373 and the OpenAI chunk shape) -/

structure FunctionSpec where
  name : String
  arguments : String
  deriving DecidableEq, Repr

structure ToolCall where
  id : String
  type : String
  function : FunctionSpec
  deriving DecidableEq, Repr

/-- The `Message` interface of route.ts lines 363-369.  Fields that the
source marks optional are `Option`s; a JSON `null` content is `none`. -/
structure Message where
  role : String
  content : Option String := none
  name : Option String := none
  tool_calls : Option (List ToolCall) := none
  tool_call_id : Option String := none
  deriving DecidableEq, Repr

/-- One entry of `delta.tool_calls` in a streamed chunk
(route.ts lines 578-599).  `fname` and `fargs` stand for
`toolCallDelta.function?.name` and `toolCallDelta.function?.arguments`;
an absent `function` object and an absent field are conflated, which the
source treats identically. -/
structure ToolCallDelta where
  index : Nat
  id : Option String
  fname : Option String
  fargs : Option String
  deriving DecidableEq, Repr

structure Delta where
  content : Option String
  tool_calls : Option (List ToolCallDelta)
  deriving DecidableEq, Repr

inductive FinishReason where
  | stop
  | tool_calls
  | length
  | content_filter
  deriving DecidableEq, Repr

/-- One streamed completion chunk, restricted to `chunk.choices[0]`,
the only choice the handler reads. -/
structure Chunk where
  delta : Option Delta
  finish_reason : Option FinishReason
  deriving DecidableEq, Repr

/-- The SSE events the handler enqueues.  On the wire each event is a
`data: ...` line holding a JSON object with this `type` tag; the model
keeps the events themselves.  The `error` payload is the fixed string of
route.ts line 702. -/
inductive SSE where
  | content (s : String)
  | tool_start
  | done
  | error (msg : String)
  deriving DecidableEq, Repr

/-- Outcome of iterating the follow-up completion stream: the chunks the
provider delivered, and whether the iteration then raised (a provider
error mid-stream, or a rejected create call — in which case `chunks`
is empty). -/
structure FollowResult where
  chunks : List Chunk
  failed : Bool

/-- Oracles for everything the chat handler awaits: the four query
helpers imported from the database client module (route.ts line 3), the
local current-date value, `JSON.parse` (`none` means it throws), and the
follow-up completion call.  `Except.error` marks a rejected promise. -/
structure ChatEnv where
  queryTable : Option Json → Option Json → Option Json → Option Json → Except String Json
  queryTableWithJoin : Option Json → Option Json → Option Json → Option Json → Option Json → Except String Json
  getTableNames : Except String Json
  getTableStructure : Option Json → Except String Json
  currentDateTime : Json
  parseJson : String → Option Json
  followUp : List Message → FollowResult

/-- The fixed instruction string prepended as the system message
(route.ts lines 63-361).  The body is a long fixed German operations
prompt; no claim depends on its text, so only its opening sentence is
reproduced and the remainder summarised, keeping the constant a fixed
string exactly as the source does. -/
def SYSTEM_PROMPT : String :=
  "You are the \"LiS Operations Assistant\", an expert assistant for the company \"Land in Sicht\". [fixed German system prompt: database views and tables, SELECT-only SQL rules, behaviour and answer-style instructions]"

/-- The extra instruction appended to the system prompt of the follow-up
request (route.ts lines 659-668), verbatim. -/
def FOLLOW_UP_INSTRUCTION : String :=
  "\n\nWICHTIG FÜR DIESE ANTWORT:\nDu hast gerade die Datenbank abgefragt und die Ergebnisse liegen vor.\nANTWORTE JETZT DIREKT MIT DEN DATEN!\n- KEINE Ankündigungen wie \"Ich schaue nach...\", \"Einen Moment...\"\n- KEINE Wiederholung der Frage\n- KEINE Erklärung was du tust\n- Beginne SOFORT mit der Antwort auf die Frage des Users\n- Wenn keine Daten gefunden wurden, sage das direkt: \"Für [Zeitraum] sind keine Einträge vorhanden.\""

/-- The system message of the first completion request (route.ts 388-393). -/
def systemMessage : Message :=
  { role := "system", content := some SYSTEM_PROMPT }

/-- The system message of the follow-up request (route.ts 657-669). -/
def followUpSystemMessage : Message :=
  { role := "system", content := some (SYSTEM_PROMPT ++ FOLLOW_UP_INSTRUCTION) }

/-- The assistant message carrying the accumulated tool calls, with
`content: null` (route.ts 671-675). -/
def assistantToolCallsMessage (tcs : List ToolCall) : Message :=
  { role := "assistant", content := none, tool_calls := some tcs }

/-- A tool-result message (route.ts 646-651): role `tool`, the
originating `tool_call_id`, the function name, and the JSON-serialized
result as content. -/
def toolResultMessage (tc : ToolCall) (result : Json) : Message :=
  { role := "tool"
    content := some (jsonStringify result)
    name := some tc.function.name
    tool_call_id := some tc.id }

/-- The message list of the follow-up completion request
(route.ts 656-677): augmented system prompt, then the raw request
messages, then the assistant message with the tool calls, then the
tool-result messages. -/
def buildFollowUpMessages (origMessages : List Message) (tcs : List ToolCall)
    (toolResults : List Message) : List Message :=
  followUpSystemMessage :: (origMessages ++ assistantToolCallsMessage tcs :: toolResults)

/-- Tool-name dispatch (route.ts 611-644): each branch extracts the
declared argument fields from the parsed arguments object and calls the
matching helper; `getCurrentDateTime` is served locally and cannot
reject; an unknown name yields an error object without calling
anything. -/
def dispatchTool (env : ChatEnv) (functionName : String) (functionArgs : Json) :
    Except String Json :=
  if functionName == "queryTable" then
    env.queryTable (jget functionArgs "tableName") (jget functionArgs "filters")
      (jget functionArgs "limit") (jget functionArgs "joins")
  else if functionName == "queryTableWithJoin" then
    env.queryTableWithJoin (jget functionArgs "tableName") (jget functionArgs "joinTable")
      (jget functionArgs "joinColumn") (jget functionArgs "filters") (jget functionArgs "limit")
  else if functionName == "getTableNames" then
    env.getTableNames
  else if functionName == "getTableStructure" then
    env.getTableStructure (jget functionArgs "tableName")
  else if functionName == "getCurrentDateTime" then
    Except.ok env.currentDateTime
  else
    Except.ok (Json.obj [("error", Json.str ("Unknown function: " ++ functionName))])

/-- The tool-execution loop body (route.ts 610-652): for each
accumulated tool call, `JSON.parse` its arguments, dispatch, and push a
tool-result message.  `none` marks the `JSON.parse` or helper exception
that aborts the loop (observably: nothing further is enqueued until the
outer catch runs). -/
def buildToolResults (env : ChatEnv) : List ToolCall → Option (List Message)
  | [] => some []
  | tc :: rest =>
    match env.parseJson tc.function.arguments with
    | none => none
    | some args =>
      match dispatchTool env tc.function.name args with
      | Except.error _ => none
      | Except.ok res =>
        match buildToolResults env rest with
        | none => none
        | some others => some (toolResultMessage tc res :: others)

/-- Reading each slot of the sparse `toolCalls` array: a hole
(JS `undefined`, from a skipped index) makes the `for..of` body throw
when its properties are read, modelled as `none`. -/
def allSome : List (Option ToolCall) → Option (List ToolCall)
  | [] => some []
  | none :: _ => none
  | some tc :: rest => (allSome rest).map (fun l => tc :: l)

/-- The follow-up streaming loop body (route.ts 687-692): only truthy
`delta.content` is forwarded as a `content` event (the empty string is
falsy in JS and skipped). -/
def chunkContentEvent (c : Chunk) : Option SSE :=
  match c.delta with
  | some d =>
    match d.content with
    | some s => if s = "" then none else some (SSE.content s)
    | none => none
  | none => none

/-- The whole tool phase after `tool_start` is enqueued
(route.ts 610-692): execute every accumulated tool call, build the
follow-up request, and stream its content deltas.  Returns the events
emitted after `tool_start` and whether the phase raised. -/
def execToolPhase (env : ChatEnv) (origMessages : List Message)
    (tcsRaw : List (Option ToolCall)) : List SSE × Bool :=
  match allSome tcsRaw with
  | none => ([], true)
  | some tcs =>
    match buildToolResults env tcs with
    | none => ([], true)
    | some results =>
      let fr := env.followUp (buildFollowUpMessages origMessages tcs results)
      (fr.chunks.filterMap chunkContentEvent, fr.failed)

/-! ## Accumulating streamed tool-call deltas (route.ts 577-602) -/

/-- JS truthiness of an optional string: absent and empty are falsy. -/
def truthy (o : Option String) : Bool :=
  match o with
  | some s => s != ""
  | none => false

/-- `toolCalls[index]` on the sparse accumulator array. -/
def getAt (tcs : List (Option ToolCall)) (i : Nat) : Option ToolCall :=
  tcs.getD i none

/-- `toolCalls[index] = v`: JS assignment beyond the current length
fills the gap with holes. -/
def setAt (tcs : List (Option ToolCall)) (i : Nat) (v : Option ToolCall) :
    List (Option ToolCall) :=
  if i < tcs.length then tcs.set i v
  else tcs ++ List.replicate (i - tcs.length) none ++ [v]

/-- One `toolCallDelta` applied to the accumulator
(route.ts 578-601): first occurrence of an index initialises the slot
(with `|| plain-empty-string` defaults); later occurrences append truthy
argument text and overwrite truthy name and id. -/
def applyToolCallDelta (tcs : List (Option ToolCall)) (d : ToolCallDelta) :
    List (Option ToolCall) :=
  match getAt tcs d.index with
  | none =>
    setAt tcs d.index (some
      { id := d.id.getD ""
        type := "function"
        function := { name := d.fname.getD "", arguments := d.fargs.getD "" } })
  | some tc =>
    let tc1 := if truthy d.fargs then
        { tc with function :=
            { tc.function with arguments := tc.function.arguments ++ d.fargs.getD "" } }
      else tc
    let tc2 := if truthy d.fname then
        { tc1 with function := { tc1.function with name := d.fname.getD "" } }
      else tc1
    let tc3 := if truthy d.id then { tc2 with id := d.id.getD "" } else tc2
    setAt tcs d.index (some tc3)

/-- All tool-call deltas of one chunk applied in order. -/
def updToolCalls (tcs : List (Option ToolCall)) (delta : Option Delta) :
    List (Option ToolCall) :=
  match delta with
  | some d =>
    match d.tool_calls with
    | some ds => ds.foldl applyToolCallDelta tcs
    | none => tcs
  | none => tcs

/-- Truthy `delta?.content` of a chunk (the empty string is falsy and
neither buffered nor appended, route.ts 558-561). -/
def deltaContent (delta : Option Delta) : Option String :=
  match delta with
  | some d =>
    match d.content with
    | some s => if s = "" then none else some s
    | none => none
  | none => none

/-! ## The streaming state machine (route.ts 538-706) -/

/-- The mutable locals of the stream `start` callback
(route.ts 541-545).  `currentToolCall` is declared in the source but
never used and is omitted. -/
structure StreamState where
  fullContent : String
  pendingContent : List String
  toolCalls : List (Option ToolCall)
  hasToolCalls : Bool
  deriving Repr

def initState : StreamState :=
  { fullContent := "", pendingContent := [], toolCalls := [], hasToolCalls := false }

/-- Result of processing one chunk: continue the loop, close normally
(after `done`), or raise into the outer catch. -/
inductive StepRes where
  | cont (st : StreamState)
  | closed
  | threw
  deriving Repr

/-- The `finish_reason === tool_calls` handling
(route.ts 606-693): with at least one accumulated tool call, enqueue
`tool_start` and run the tool phase, which either raises into the catch
or ends with `done` and a close; with none, just `done` and close. -/
def toolCallsFinish (env : ChatEnv) (origMessages : List Message)
    (tcs : List (Option ToolCall)) : List SSE × StepRes :=
  if tcs.length > 0 then
    if (execToolPhase env origMessages tcs).2 then
      (SSE.tool_start :: (execToolPhase env origMessages tcs).1, StepRes.threw)
    else
      (SSE.tool_start :: (execToolPhase env origMessages tcs).1 ++ [SSE.done],
       StepRes.closed)
  else ([SSE.done], StepRes.closed)

/-- One iteration of `for await (const chunk of completion)`
(route.ts 548-699), returning the events enqueued during the iteration.
Content is only ever flushed on a `stop` finish with no tool calls seen;
a `tool_calls` finish discards the buffer and runs the tool phase; any
other finish reason closes after `done` without flushing. -/
def processChunk (env : ChatEnv) (origMessages : List Message) (st : StreamState)
    (c : Chunk) : List SSE × StepRes :=
  let hasTC := st.hasToolCalls ||
    (match c.delta with
     | some d => d.tool_calls.isSome
     | none => false)
  let pending1 :=
    match deltaContent c.delta with
    | some s => st.pendingContent ++ [s]
    | none => st.pendingContent
  let full1 :=
    match deltaContent c.delta with
    | some s => st.fullContent ++ s
    | none => st.fullContent
  let tcs := updToolCalls st.toolCalls c.delta
  match c.finish_reason with
  | none =>
    ([], StepRes.cont
      { fullContent := full1, pendingContent := pending1
        toolCalls := tcs, hasToolCalls := hasTC })
  | some FinishReason.stop =>
    ((if hasTC then [] else pending1.map SSE.content) ++ [SSE.done], StepRes.closed)
  | some FinishReason.tool_calls => toolCallsFinish env origMessages tcs
  | some _ => ([SSE.done], StepRes.closed)

/-- How the chunk loop ended: the iterator was exhausted without a
finish chunk (the stream is left open), the controller was closed after
`done`, or an exception propagated to the catch. -/
inductive LoopOut where
  | openEnd
  | closedOk
  | threw
  deriving DecidableEq, Repr

/-- The chunk loop.  After `controller.close()` no further observable
event is possible (enqueueing on a closed controller throws, and the
catch enqueue then throws as well), so processing stops at the close. -/
def runChunks (env : ChatEnv) (origMessages : List Message) :
    StreamState → List Chunk → List SSE × LoopOut
  | _, [] => ([], LoopOut.openEnd)
  | st, c :: rest =>
    match processChunk env origMessages st c with
    | (evs, StepRes.cont st1) =>
      let r := runChunks env origMessages st1 rest
      (evs ++ r.1, r.2)
    | (evs, StepRes.closed) => (evs, LoopOut.closedOk)
    | (evs, StepRes.threw) => (evs, LoopOut.threw)

inductive StreamFate where
  | leftOpen
  | closedNormally
  | closedAfterCatch
  deriving DecidableEq, Repr

/-- The full stream body (route.ts 539-705): run the chunk loop; an
exception anywhere inside — including `firstStreamThrows`, the first
completion iterator itself rejecting after its chunks — reaches the
catch, which enqueues the fixed error event and closes. -/
def streamBody (env : ChatEnv) (origMessages : List Message) (chunks : List Chunk)
    (firstStreamThrows : Bool) : List SSE × StreamFate :=
  match runChunks env origMessages initState chunks with
  | (evs, LoopOut.closedOk) => (evs, StreamFate.closedNormally)
  | (evs, LoopOut.openEnd) =>
    if firstStreamThrows then
      (evs ++ [SSE.error "Stream error occurred"], StreamFate.closedAfterCatch)
    else (evs, StreamFate.leftOpen)
  | (evs, LoopOut.threw) =>
    (evs ++ [SSE.error "Stream error occurred"], StreamFate.closedAfterCatch)

/-! ## The POST /api/chat handler (route.ts 375-724) -/

/-- Outcomes of `const body = await req.json()` followed by
`const { messages } = body` and the array check (route.ts 377-385):

* `invalidJson` — `req.json()` rejects (the body is not valid JSON);
  the outer catch returns 500 with the parse error message;
* `nullBody` — the body is the JSON literal `null`: destructuring
  `const ... = body` throws a TypeError, again caught as 500;
* `noMessages` — the parsed value has no truthy `messages` field;
* `messagesNotArray` — `messages` is truthy but not an array;
* `messages ms` — a well-formed messages array. -/
inductive ReqBody where
  | invalidJson (emsg : String)
  | nullBody
  | noMessages
  | messagesNotArray
  | messages (ms : List Message)

/-- Paraphrase of the V8 TypeError message raised by destructuring a
`null` body; the exact wording is runtime-defined and not load-bearing,
only that the response is a 500 carrying it. -/
def nullDestructureMessage : String :=
  "Cannot destructure property of null request body"

/-- The per-request copy of a caller message (route.ts 396-413):
role and content are always copied; `tool_calls` is copied when present
(any array, even empty, is truthy); `tool_call_id` is copied only when
truthy, so a present empty string is dropped. -/
def toOpenaiMessage (m : Message) : Message :=
  { role := m.role
    content := m.content
    name := none
    tool_calls := m.tool_calls
    tool_call_id :=
      match m.tool_call_id with
      | some s => if s = "" then none else some s
      | none => none }

/-- The message list sent to the chat-completion API
(route.ts 387-413): the fixed system prompt followed by the converted
caller messages in order. -/
def buildOpenaiMessages (ms : List Message) : List Message :=
  systemMessage :: ms.map toOpenaiMessage

/-- The response headers of the streaming success response
(route.ts 708-714). -/
def sseHeaders : List (String × String) :=
  [("Content-Type", "text/event-stream"),
   ("Cache-Control", "no-cache"),
   ("Connection", "keep-alive")]

/-- The two response constructs the handler can produce: a JSON body
carrying an `error` field with an HTTP status, or the SSE stream
response.  No code path produces a JSON body with a `message` field. -/
inductive ChatOutcome where
  | json (status : Nat) (errorMessage : String)
  | sse (headers : List (String × String)) (events : List SSE) (fate : StreamFate)
  deriving DecidableEq, Repr

/-- The `POST /api/chat` handler (route.ts 375-724).

`createThrow` is `some emsg` when the first
`openai.chat.completions.create` call rejects (caught by the outer
catch as a 500); `chunks` are the chunks its stream then yields, and
`firstStreamThrows` says whether that stream raises after them.

The second component records the completion request issued, if any: the
message list forwarded to the provider.  The stream body runs when the
response body is consumed; the model folds its events into the
outcome. -/
def chatPOST (env : ChatEnv) (body : ReqBody) (createThrow : Option String)
    (chunks : List Chunk) (firstStreamThrows : Bool) :
    ChatOutcome × Option (List Message) :=
  match body with
  | ReqBody.invalidJson emsg => (ChatOutcome.json 500 emsg, none)
  | ReqBody.nullBody => (ChatOutcome.json 500 nullDestructureMessage, none)
  | ReqBody.noMessages => (ChatOutcome.json 400 "Messages array is required", none)
  | ReqBody.messagesNotArray => (ChatOutcome.json 400 "Messages array is required", none)
  | ReqBody.messages ms =>
    match createThrow with
    | some emsg => (ChatOutcome.json 500 emsg, some (buildOpenaiMessages ms))
    | none =>
      let sb := streamBody env ms chunks firstStreamThrows
      (ChatOutcome.sse sseHeaders sb.1 sb.2, some (buildOpenaiMessages ms))

/-- Chat route module initialisation (route.ts 52-58): the OpenAI
client is constructed with the key from the environment (the
constructor itself also rejects a missing key), and the module then
throws when `process.env.OPENAI_API_KEY` is falsy, so the module fails
to load before any handler can run. -/
def chatModuleInit (openaiApiKey : Option String) : Except String Unit :=
  match openaiApiKey with
  | none => Except.error "OPENAI_API_KEY is not set"
  | some k => if k = "" then Except.error "OPENAI_API_KEY is not set" else Except.ok ()

/-- STT route module initialisation (part_000 lines 3-7): throws when
`process.env.DEEPGRAM_API_KEY` is falsy. -/
def sttModuleInit (deepgramApiKey : Option String) : Except String Unit :=
  match deepgramApiKey with
  | none => Except.error "DEEPGRAM_API_KEY is not set"
  | some k => if k = "" then Except.error "DEEPGRAM_API_KEY is not set" else Except.ok ()

/-! ## The declared tool set (route.ts 419-530) -/

/-- The names of the tools the endpoint declares to the model in the
`tools` array of the first completion request (route.ts 419-530); the
parameter schemas are provider-facing data and are not modelled. -/
def declaredToolNames : List String :=
  ["queryTable", "queryTableWithJoin", "getTableNames", "getTableStructure",
   "getCurrentDateTime"]

/-- The four query helper functions imported from the hosted database
client module (route.ts line 3). -/
def queryHelperNames : List String :=
  ["queryTable", "getTableNames", "getTableStructure", "queryTableWithJoin"]

/-! ## The POST /api/stt handler (part_000, two variants) -/

/-- The nested optional shape of a Deepgram success body, as far as the
handler reads it: `data?.results?.channels?.[0]?.alternatives?.[0]?.transcript`. -/
structure DgAlternative where
  transcript : Option String

structure DgChannel where
  alternatives : Option (List DgAlternative)

structure DgResults where
  channels : Option (List DgChannel)

structure DgData where
  results : Option DgResults

/-- Transcript extraction (part_000 lines 79-80 and 147-148): the
optional chain with `|| plain-empty-string` at the end. -/
def extractTranscript (d : DgData) : String :=
  match d.results with
  | none => ""
  | some r =>
    match r.channels with
    | none => ""
    | some cs =>
      match cs.head? with
      | none => ""
      | some c =>
        match c.alternatives with
        | none => ""
        | some als =>
          match als.head? with
          | none => ""
          | some a => a.transcript.getD ""

/-- The uploaded form file: its MIME `type` (possibly empty) and
filename. -/
structure AudioFile where
  type : String
  name : String
  deriving DecidableEq, Repr

/-- Content-type resolution of variant 1 (part_000 lines 24-38): the
file type when non-empty, otherwise inferred from the lowercased
filename suffix, defaulting to webm. -/
def resolveContentType (f : AudioFile) : String :=
  if f.type ≠ "" then f.type
  else
    let fileName := f.name.map Char.toLower
    if fileName.endsWith ".m4a" || fileName.endsWith ".mp4" then "audio/mp4"
    else if fileName.endsWith ".ogg" then "audio/ogg"
    else if fileName.endsWith ".aac" then "audio/aac"
    else "audio/webm"

/-- Content-type resolution of variant 2 (part_000 line 130):
`audioFile.type || default webm`. -/
def resolveContentTypeAlt (f : AudioFile) : String :=
  if f.type ≠ "" then f.type else "audio/webm"

/-- The Deepgram fetch outcome: an HTTP failure with its status and
body text, a success with the parsed body, or the fetch itself
rejecting. -/
inductive DeepgramReply where
  | failure (status : Nat) (bodyText : String)
  | success (data : DgData)
  | fetchThrows (emsg : String)

/-- The transcription oracle, keyed by the content type the handler
sends. -/
structure SttEnv where
  deepgram : String → DeepgramReply

/-- Request outcomes before the provider call: `req.formData()`
rejecting, a missing `audio` field, or an audio file. -/
inductive SttReq where
  | formDataThrows (emsg : String)
  | noAudio
  | audio (file : AudioFile)

/-- The two response shapes of the STT route: an error JSON (variant 1
additionally carries the provider body as `details`), or the
`transcript` success body (HTTP 200). -/
inductive SttResult where
  | errorJson (status : Nat) (errorMessage : String) (details : Option String)
  | transcriptJson (transcript : String)
  deriving DecidableEq, Repr

/-- The status-specific error message mapping of variant 1
(part_000 lines 61-68). -/
def deepgramErrorMessage (status : Nat) : String :=
  if status = 400 then "Invalid audio format. Please try recording again."
  else if status = 401 then "Deepgram API authentication failed. Please check your API key."
  else if status = 413 then "Audio file is too large. Please record a shorter message."
  else "Failed to transcribe audio"

/-- The `POST /api/stt` handler, variant 1 (part_000 lines 9-99). -/
def sttPOST (env : SttEnv) (req : SttReq) : SttResult :=
  match req with
  | SttReq.formDataThrows emsg => SttResult.errorJson 500 emsg none
  | SttReq.noAudio => SttResult.errorJson 400 "Audio file is required" none
  | SttReq.audio f =>
    match env.deepgram (resolveContentType f) with
    | DeepgramReply.fetchThrows emsg => SttResult.errorJson 500 emsg none
    | DeepgramReply.failure st bodyText =>
      SttResult.errorJson st (deepgramErrorMessage st) (some bodyText)
    | DeepgramReply.success data =>
      let transcript := extractTranscript data
      if transcript = "" then SttResult.errorJson 400 "No speech detected" none
      else SttResult.transcriptJson transcript

/-- The `POST /api/stt` handler, variant 2 (part_000 lines 109-167):
same shape, fixed failure message, no `details` field. -/
def sttPOSTAlt (env : SttEnv) (req : SttReq) : SttResult :=
  match req with
  | SttReq.formDataThrows emsg => SttResult.errorJson 500 emsg none
  | SttReq.noAudio => SttResult.errorJson 400 "Audio file is required" none
  | SttReq.audio f =>
    match env.deepgram (resolveContentTypeAlt f) with
    | DeepgramReply.fetchThrows emsg => SttResult.errorJson 500 emsg none
    | DeepgramReply.failure st _ =>
      SttResult.errorJson st "Failed to transcribe audio" none
    | DeepgramReply.success data =>
      let transcript := extractTranscript data
      if transcript = "" then SttResult.errorJson 400 "No speech detected" none
      else SttResult.transcriptJson transcript

/-! ## Concrete instances used by witnesses and counterexamples -/

/-- A benign oracle set: every helper succeeds, argument parsing
succeeds, the follow-up completion yields no chunks. -/
def envA : ChatEnv :=
  { queryTable := fun _ _ _ _ => Except.ok (Json.str "ok")
    queryTableWithJoin := fun _ _ _ _ _ => Except.ok (Json.str "ok")
    getTableNames := Except.ok (Json.arr [])
    getTableStructure := fun _ => Except.ok (Json.arr [])
    currentDateTime := Json.obj [("isoDate", Json.str "2025-12-10")]
    parseJson := fun _ => some (Json.obj [])
    followUp := fun _ => { chunks := [], failed := false } }

/-- As `envA`, but `JSON.parse` of tool arguments throws. -/
def envBadParse : ChatEnv := { envA with parseJson := fun _ => none }

/-- As `envA`, but the follow-up completion streams one content chunk. -/
def envFollowHallo : ChatEnv :=
  { envA with followUp := fun _ =>
      { chunks := [{ delta := some { content := some "Hallo", tool_calls := none }
                     finish_reason := some FinishReason.stop }]
        failed := false } }

def toolDelta1 : ToolCallDelta :=
  { index := 0, id := some "call_1", fname := some "queryTable", fargs := some "\x7b\x7d" }

/-- A finishing chunk that both announces a tool call and ends the first
completion with `finish_reason: tool_calls`. -/
def chunk10 : Chunk :=
  { delta := some { content := none, tool_calls := some [toolDelta1] }
    finish_reason := some FinishReason.tool_calls }

def chunks10 : List Chunk := [chunk10]

/-- A plain streamed answer: one content delta, then a `stop` finish. -/
def happyChunks : List Chunk :=
  [{ delta := some { content := some "Hallo", tool_calls := none }, finish_reason := none },
   { delta := none, finish_reason := some FinishReason.stop }]

def tc1 : ToolCall :=
  { id := "call_1", type := "function"
    function := { name := "queryTable", arguments := "\x7b\x7d" } }

/-- A caller message whose `tool_call_id` is present but empty. -/
def emptyIdMsg : Message :=
  { role := "tool", content := some "r", tool_call_id := some "" }

/-- A caller message with a non-empty `tool_call_id`. -/
def toolIdMsg : Message :=
  { role := "tool", content := some "r", tool_call_id := some "call_9" }

def audioF : AudioFile := { type := "audio/flac", name := "recording.webm" }

def sttEnvFail : SttEnv := ⟨fun _ => DeepgramReply.failure 400 "unsupported media type"⟩

def dgHallo : DgData :=
  { results := some
      { channels := some [{ alternatives := some [{ transcript := some "Hallo Welt" }] }] } }

def sttEnvOk : SttEnv := ⟨fun _ => DeepgramReply.success dgHallo⟩

/-! ## Helper lemmas about the streaming state machine -/

theorem processChunk_cont_events (env : ChatEnv) (msgs : List Message)
    (st st1 : StreamState) (c : Chunk) (evs : List SSE)
    (h : processChunk env msgs st c = (evs, StepRes.cont st1)) : evs = [] := by
  cases hc : c.finish_reason with
  | none => simp [processChunk, hc] at h; exact h.1
  | some fr =>
    cases fr with
    | stop => simp [processChunk, hc] at h
    | tool_calls =>
      simp [processChunk, hc, toolCallsFinish] at h
      split at h
      · split at h <;> simp at h
      · simp at h
    | length => simp [processChunk, hc] at h
    | content_filter => simp [processChunk, hc] at h

theorem toolCallsFinish_closed_getLast (env : ChatEnv) (msgs : List Message)
    (tcs : List (Option ToolCall))
    (h : (toolCallsFinish env msgs tcs).2 = StepRes.closed) :
    (toolCallsFinish env msgs tcs).1.getLast? = some SSE.done := by
  unfold toolCallsFinish at h ⊢
  by_cases h1 : tcs.length > 0
  · rw [if_pos h1] at h ⊢
    by_cases h2 : (execToolPhase env msgs tcs).2
    · rw [if_pos h2] at h; simp at h
    · rw [if_neg h2] at h ⊢
      exact List.getLast?_concat _
  · rw [if_neg h1]; rfl

theorem processChunk_closed_getLast (env : ChatEnv) (msgs : List Message)
    (st : StreamState) (c : Chunk)
    (h : (processChunk env msgs st c).2 = StepRes.closed) :
    (processChunk env msgs st c).1.getLast? = some SSE.done := by
  cases hc : c.finish_reason with
  | none => simp [processChunk, hc] at h
  | some fr =>
    cases fr with
    | stop => simp [processChunk, hc, List.getLast?_concat]
    | tool_calls =>
      simp only [processChunk, hc] at h ⊢
      exact toolCallsFinish_closed_getLast env msgs _ h
    | length => simp [processChunk, hc]
    | content_filter => simp [processChunk, hc]

theorem runChunks_closedOk_getLast (env : ChatEnv) (msgs : List Message) :
    ∀ (chunks : List Chunk) (st : StreamState),
      (runChunks env msgs st chunks).2 = LoopOut.closedOk →
      (runChunks env msgs st chunks).1.getLast? = some SSE.done := by
  intro chunks
  induction chunks with
  | nil => intro st h; simp [runChunks] at h
  | cons c rest ih =>
    intro st h
    rcases hp : processChunk env msgs st c with ⟨evs, sr⟩
    cases sr with
    | cont st1 =>
      have hevs : evs = [] := processChunk_cont_events env msgs st st1 c evs hp
      subst hevs
      simp only [runChunks, hp] at h ⊢
      simpa using ih st1 (by simpa using h)
    | closed =>
      simp only [runChunks, hp]
      have := processChunk_closed_getLast env msgs st c (by rw [hp])
      rw [hp] at this
      exact this
    | threw => simp [runChunks, hp] at h

theorem execToolPhase_content (env : ChatEnv) (msgs : List Message)
    (tcsRaw : List (Option ToolCall)) (s : String)
    (h : SSE.content s ∈ (execToolPhase env msgs tcsRaw).1) :
    ∃ fm, SSE.content s ∈ (env.followUp fm).chunks.filterMap chunkContentEvent := by
  unfold execToolPhase at h
  split at h
  · simp at h
  · split at h
    · simp at h
    · exact ⟨_, h⟩

theorem toolCallsFinish_content (env : ChatEnv) (msgs : List Message)
    (tcs : List (Option ToolCall)) (s : String)
    (h : SSE.content s ∈ (toolCallsFinish env msgs tcs).1) :
    ∃ fm, SSE.content s ∈ (env.followUp fm).chunks.filterMap chunkContentEvent := by
  unfold toolCallsFinish at h
  by_cases h1 : tcs.length > 0
  · rw [if_pos h1] at h
    by_cases h2 : (execToolPhase env msgs tcs).2
    · rw [if_pos h2] at h
      simp at h
      exact execToolPhase_content env msgs tcs s h
    · rw [if_neg h2] at h
      simp at h
      exact execToolPhase_content env msgs tcs s h
  · rw [if_neg h1] at h
    simp at h

theorem runChunks_content (env : ChatEnv) (msgs : List Message) :
    ∀ (chunks : List Chunk) (st : StreamState) (s : String),
      (∀ c ∈ chunks.dropLast, c.finish_reason = none) →
      (∃ c, chunks.getLast? = some c ∧ c.finish_reason = some FinishReason.tool_calls) →
      SSE.content s ∈ (runChunks env msgs st chunks).1 →
      ∃ fm, SSE.content s ∈ (env.followUp fm).chunks.filterMap chunkContentEvent := by
  intro chunks
  induction chunks with
  | nil =>
    intro st s _ hLast _
    obtain ⟨c, hc, _⟩ := hLast
    simp at hc
  | cons c rest ih =>
    intro st s hPre hLast hm
    rcases rest with _ | ⟨c2, rest2⟩
    · obtain ⟨cl, hcl, hfin0⟩ := hLast
      have hfin : c.finish_reason = some FinishReason.tool_calls := by
        have hcc : c = cl := by simpa using hcl
        rw [hcc]
        exact hfin0
      have h1 : (runChunks env msgs st [c]).1 = (processChunk env msgs st c).1 := by
        rcases hp : processChunk env msgs st c with ⟨evs, sr⟩
        cases sr <;> simp [runChunks, hp]
      rw [h1] at hm
      have hpc : processChunk env msgs st c =
          toolCallsFinish env msgs (updToolCalls st.toolCalls c.delta) := by
        simp [processChunk, hfin]
      rw [hpc] at hm
      exact toolCallsFinish_content env msgs _ s hm
    · have hcf : c.finish_reason = none := by
        apply hPre
        rw [List.dropLast_cons₂]
        exact List.mem_cons_self c _
      have hpc : ∃ st1, processChunk env msgs st c = ([], StepRes.cont st1) := by
        simp [processChunk, hcf]
      obtain ⟨st1, hpc⟩ := hpc
      have h2 : (runChunks env msgs st (c :: c2 :: rest2)).1 =
          (runChunks env msgs st1 (c2 :: rest2)).1 := by
        simp [runChunks, hpc]
      rw [h2] at hm
      refine ih st1 s ?_ ?_ hm
      · intro x hx
        apply hPre
        rw [List.dropLast_cons₂]
        exact List.mem_cons_of_mem c hx
      · obtain ⟨cl, hcl, hfin⟩ := hLast
        exact ⟨cl, by rw [List.getLast?_cons_cons] at hcl; exact hcl, hfin⟩

/-! ## Helper lemmas about tool-result construction -/

theorem allSome_map_some : ∀ (l : List ToolCall), allSome (l.map some) = some l := by
  intro l
  induction l with
  | nil => rfl
  | cons tc rest ih => simp [allSome, ih]

theorem buildToolResults_mem (env : ChatEnv) :
    ∀ (tcs : List ToolCall) (results : List Message),
      buildToolResults env tcs = some results →
      ∀ r ∈ results, r.role = "tool" ∧
        ∃ tc ∈ tcs, r.tool_call_id = some tc.id ∧ r.name = some tc.function.name ∧
          ∃ args res, env.parseJson tc.function.arguments = some args ∧
            dispatchTool env tc.function.name args = Except.ok res ∧
            r.content = some (jsonStringify res) := by
  intro tcs
  induction tcs with
  | nil =>
    intro results h r hr
    simp [buildToolResults] at h
    subst h
    simp at hr
  | cons tc rest ih =>
    intro results h r hr
    unfold buildToolResults at h
    split at h
    · simp at h
    · rename_i args hp
      split at h
      · simp at h
      · rename_i res hd
        split at h
        · simp at h
        · rename_i others hb
          have hres : toolResultMessage tc res :: others = results := by
            simpa using h
          subst hres
          rcases List.mem_cons.mp hr with hr | hr
          · subst hr
            exact ⟨rfl, tc, List.mem_cons_self tc rest, rfl, rfl, args, res, hp, hd, rfl⟩
          · obtain ⟨hrole, tc2, htc2, hrest⟩ := ih others hb r hr
            exact ⟨hrole, tc2, List.mem_cons_of_mem tc htc2, hrest⟩

/-! ## Claim C1 — stream termination events -/

/-- Claim C1, as stated, is false: on an execution where an exception is
thrown inside the stream (here: `JSON.parse` of the tool-call arguments
fails), the emitted SSE sequence is `tool_start` followed by the
`error` event of the catch handler, and does not end with a `done`
event. -/
theorem c1_counterexample :
    streamBody envBadParse [] chunks10 false =
      ([SSE.tool_start, SSE.error "Stream error occurred"], StreamFate.closedAfterCatch) ∧
    ¬ ([SSE.tool_start, SSE.error "Stream error occurred"].getLast? = some SSE.done) := by
  exact ⟨by decide, by decide⟩

/-- Claim C1 (amended): whenever the chat stream closes normally the
emitted SSE sequence ends with a `done` event, and whenever it closes
because an exception reached the catch handler it ends with the
`error` event instead of `done`. -/
theorem c1_stream_termination (env : ChatEnv) (msgs : List Message)
    (chunks : List Chunk) (firstStreamThrows : Bool) :
    ((streamBody env msgs chunks firstStreamThrows).2 = StreamFate.closedNormally →
      (streamBody env msgs chunks firstStreamThrows).1.getLast? = some SSE.done) ∧
    ((streamBody env msgs chunks firstStreamThrows).2 = StreamFate.closedAfterCatch →
      (streamBody env msgs chunks firstStreamThrows).1.getLast? =
        some (SSE.error "Stream error occurred")) := by
  unfold streamBody
  rcases hrc : runChunks env msgs initState chunks with ⟨evs, out⟩
  have hlast : out = LoopOut.closedOk → evs.getLast? = some SSE.done := by
    intro hout
    have := runChunks_closedOk_getLast env msgs chunks initState (by rw [hrc, hout])
    rw [hrc] at this
    exact this
  cases out with
  | closedOk => exact ⟨fun _ => hlast rfl, by simp⟩
  | openEnd =>
    by_cases hf : firstStreamThrows
    · simp only [hf, if_true]
      exact ⟨by simp, fun _ => List.getLast?_concat _⟩
    · simp only [hf, if_false]
      exact ⟨by simp, by simp⟩
  | threw => exact ⟨by simp, fun _ => List.getLast?_concat _⟩

/-- Witness for C1 (amended) at a concrete run: a content chunk followed
by a `stop` finish closes normally and the event list ends with
`done`. -/
theorem c1_witness :
    (streamBody envA [] happyChunks false).1.getLast? = some SSE.done :=
  (c1_stream_termination envA [] happyChunks false).1 (by decide)

/-! ## Claim C2 — response shape of POST /api/chat -/

/-- Claim C2 (code-bug evidence): for every request with a valid
`messages` array the handler returns the SSE stream response with the
`text/event-stream` headers; no code path returns the JSON
`message.role`/`message.content` object that the browser UI
`sendMessage` parses. -/
theorem c2_chat_success_is_sse (env : ChatEnv) (ms : List Message)
    (chunks : List Chunk) (firstStreamThrows : Bool) :
    chatPOST env (ReqBody.messages ms) none chunks firstStreamThrows =
      (ChatOutcome.sse sseHeaders
        (streamBody env ms chunks firstStreamThrows).1
        (streamBody env ms chunks firstStreamThrows).2,
       some (buildOpenaiMessages ms)) := rfl

/-! ## Claim C3 — the declared tool set and its dispatch -/

/-- Claim C3, as stated, is false: the endpoint declares five tools, and
`getCurrentDateTime` is declared but is not one of the four query
helper functions imported from the database client module. -/
theorem c3_counterexample :
    "getCurrentDateTime" ∈ declaredToolNames ∧
    "getCurrentDateTime" ∉ queryHelperNames := by decide

/-- Claim C3 (amended): every declared tool name is one of the four
query helpers or `getCurrentDateTime`, and dispatch maps each of the
four helper names to the corresponding helper call on the extracted
arguments, and `getCurrentDateTime` to the local date-time value. -/
theorem c3_tool_dispatch (env : ChatEnv) (args : Json) :
    declaredToolNames.all
      (fun n => queryHelperNames.contains n || n == "getCurrentDateTime") = true ∧
    dispatchTool env "queryTable" args =
      env.queryTable (jget args "tableName") (jget args "filters")
        (jget args "limit") (jget args "joins") ∧
    dispatchTool env "queryTableWithJoin" args =
      env.queryTableWithJoin (jget args "tableName") (jget args "joinTable")
        (jget args "joinColumn") (jget args "filters") (jget args "limit") ∧
    dispatchTool env "getTableNames" args = env.getTableNames ∧
    dispatchTool env "getTableStructure" args = env.getTableStructure (jget args "tableName") ∧
    dispatchTool env "getCurrentDateTime" args = Except.ok env.currentDateTime := by
  exact ⟨by decide, rfl, rfl, rfl, rfl, rfl⟩

/-! ## Claim C4 — tool-result serialization and ordering -/

/-- Claim C4: every executed tool call contributes a message with role
`tool`, the originating `tool_call_id`, and the `JSON.stringify` of the
helper result as content; the follow-up request message list places all
tool-result messages after the assistant message carrying the tool
calls, and the follow-up completion is invoked on exactly that list. -/
theorem c4_tool_results_serialized (env : ChatEnv) (msgs : List Message)
    (tcs : List ToolCall) (results : List Message)
    (h : buildToolResults env tcs = some results) :
    (∀ r ∈ results, r.role = "tool" ∧
      ∃ tc ∈ tcs, r.tool_call_id = some tc.id ∧ r.name = some tc.function.name ∧
        ∃ args res, env.parseJson tc.function.arguments = some args ∧
          dispatchTool env tc.function.name args = Except.ok res ∧
          r.content = some (jsonStringify res)) ∧
    buildFollowUpMessages msgs tcs results =
      followUpSystemMessage :: (msgs ++ assistantToolCallsMessage tcs :: results) ∧
    execToolPhase env msgs (tcs.map some) =
      ((env.followUp (buildFollowUpMessages msgs tcs results)).chunks.filterMap
         chunkContentEvent,
       (env.followUp (buildFollowUpMessages msgs tcs results)).failed) := by
  refine ⟨buildToolResults_mem env tcs results h, rfl, ?_⟩
  simp [execToolPhase, allSome_map_some, h]

/-- Witness for C4 at a concrete tool call handled by `queryTable`. -/
theorem c4_witness :
    buildFollowUpMessages [] [tc1] [toolResultMessage tc1 (Json.str "ok")] =
      followUpSystemMessage ::
        ([] ++ assistantToolCallsMessage [tc1] :: [toolResultMessage tc1 (Json.str "ok")]) ∧
    (toolResultMessage tc1 (Json.str "ok")).role = "tool" :=
  ⟨(c4_tool_results_serialized envA [] [tc1] [toolResultMessage tc1 (Json.str "ok")] rfl).2.1,
   ((c4_tool_results_serialized envA [] [tc1] [toolResultMessage tc1 (Json.str "ok")] rfl).1
     (toolResultMessage tc1 (Json.str "ok")) (List.mem_singleton.mpr rfl)).1⟩

/-! ## Claim C5 — missing messages array -/

/-- Claim C5, as stated, is false at the JSON body `null`: that parsed
body has no `messages` field, yet destructuring it throws and the outer
catch returns HTTP 500, not the 400 `Messages array is required`
response. -/
theorem c5_counterexample :
    chatPOST envA ReqBody.nullBody none [] false =
      (ChatOutcome.json 500 nullDestructureMessage, none) ∧
    ChatOutcome.json 500 nullDestructureMessage ≠
      ChatOutcome.json 400 "Messages array is required" := by
  exact ⟨rfl, by decide⟩

/-- Claim C5 (amended): for every request whose parsed JSON body is a
non-null value with a missing (falsy) `messages` field or a non-array
`messages` field, the handler returns HTTP 400 with the
`Messages array is required` error body and issues no completion
request. -/
theorem c5_missing_messages_400 (env : ChatEnv) (body : ReqBody)
    (createThrow : Option String) (chunks : List Chunk) (firstStreamThrows : Bool)
    (h : body = ReqBody.noMessages ∨ body = ReqBody.messagesNotArray) :
    chatPOST env body createThrow chunks firstStreamThrows =
      (ChatOutcome.json 400 "Messages array is required", none) := by
  rcases h with rfl | rfl <;> rfl

/-- Witness for C5 (amended) at a body without a `messages` field. -/
theorem c5_witness :
    chatPOST envA ReqBody.noMessages none [] false =
      (ChatOutcome.json 400 "Messages array is required", none) :=
  c5_missing_messages_400 envA ReqBody.noMessages none [] false (Or.inl rfl)

/-! ## Claim C6 — STT provider failures -/

/-- Claim C6: for every Deepgram failure the STT route returns exactly
the provider status, and the status-specific message for 400 (the
status Deepgram uses for an unsupported media type) is the descriptive
`Invalid audio format` text. -/
theorem c6_provider_status_passthrough (env : SttEnv) (f : AudioFile)
    (st : Nat) (bodyText : String)
    (h : env.deepgram (resolveContentType f) = DeepgramReply.failure st bodyText) :
    sttPOST env (SttReq.audio f) =
      SttResult.errorJson st (deepgramErrorMessage st) (some bodyText) ∧
    deepgramErrorMessage 400 = "Invalid audio format. Please try recording again." := by
  constructor
  · simp [sttPOST, h]
  · rfl

/-- Witness for C6 at a provider 400 rejection. -/
theorem c6_witness :
    sttPOST sttEnvFail (SttReq.audio audioF) =
      SttResult.errorJson 400 "Invalid audio format. Please try recording again."
        (some "unsupported media type") :=
  (c6_provider_status_passthrough sttEnvFail audioF 400 "unsupported media type" rfl).1

/-! ## Claim C7 — missing API keys fail module load -/

/-- Claim C7: with `OPENAI_API_KEY` unset the chat route module throws
during initialisation, and with `DEEPGRAM_API_KEY` unset the STT route
module throws during initialisation, so neither handler can run. -/
theorem c7_missing_key_init_throws :
    chatModuleInit none = Except.error "OPENAI_API_KEY is not set" ∧
    sttModuleInit none = Except.error "DEEPGRAM_API_KEY is not set" := ⟨rfl, rfl⟩

/-! ## Claim C8 — the forwarded message list -/

/-- Claim C8, as stated, is false at a message whose `tool_call_id` is
the empty string: the field is present on the caller message but the
JS truthiness check drops it from the forwarded copy. -/
theorem c8_counterexample :
    (chatPOST envA (ReqBody.messages [emptyIdMsg]) none [] false).2 =
      some [systemMessage, toOpenaiMessage emptyIdMsg] ∧
    emptyIdMsg.tool_call_id = some "" ∧
    (toOpenaiMessage emptyIdMsg).tool_call_id = none := ⟨rfl, rfl, rfl⟩

/-- Claim C8 (amended): the forwarded list is the fixed system prompt
message followed by the converted caller messages in order; conversion
preserves role, content and `tool_calls`, and preserves `tool_call_id`
whenever it is present and non-empty. -/
theorem c8_system_prompt_first (env : ChatEnv) (ms : List Message)
    (createThrow : Option String) (chunks : List Chunk) (firstStreamThrows : Bool)
    (m : Message) (s : String) :
    (chatPOST env (ReqBody.messages ms) createThrow chunks firstStreamThrows).2 =
      some (systemMessage :: ms.map toOpenaiMessage) ∧
    systemMessage = { role := "system", content := some SYSTEM_PROMPT } ∧
    (toOpenaiMessage m).role = m.role ∧
    (toOpenaiMessage m).content = m.content ∧
    (toOpenaiMessage m).tool_calls = m.tool_calls ∧
    (m.tool_call_id = some s → s ≠ "" → (toOpenaiMessage m).tool_call_id = some s) := by
  refine ⟨?_, rfl, rfl, rfl, rfl, ?_⟩
  · cases createThrow <;> rfl
  · intro h hs
    simp [toOpenaiMessage, h, hs]

/-- Witness for C8 (amended) at a message carrying a non-empty
`tool_call_id`. -/
theorem c8_witness :
    (chatPOST envA (ReqBody.messages [toolIdMsg]) none [] false).2 =
      some [systemMessage, toOpenaiMessage toolIdMsg] ∧
    (toOpenaiMessage toolIdMsg).tool_call_id = some "call_9" :=
  ⟨(c8_system_prompt_first envA [toolIdMsg] none [] false toolIdMsg "call_9").1,
   (c8_system_prompt_first envA [toolIdMsg] none [] false toolIdMsg
      "call_9").2.2.2.2.2 rfl (by decide)⟩

/-! ## Claim C9 — empty transcript handling -/

/-- Claim C9: in both STT route variants, a provider success whose
extracted transcript is empty (or absent anywhere along the optional
chain) yields HTTP 400 with `No speech detected`, and the `transcript`
success body is returned exactly when the transcript is non-empty. -/
theorem c9_empty_transcript_400 (env : SttEnv) (f : AudioFile) (data : DgData) :
    (env.deepgram (resolveContentType f) = DeepgramReply.success data →
      (extractTranscript data = "" →
        sttPOST env (SttReq.audio f) = SttResult.errorJson 400 "No speech detected" none) ∧
      (extractTranscript data ≠ "" →
        sttPOST env (SttReq.audio f) = SttResult.transcriptJson (extractTranscript data))) ∧
    (env.deepgram (resolveContentTypeAlt f) = DeepgramReply.success data →
      (extractTranscript data = "" →
        sttPOSTAlt env (SttReq.audio f) = SttResult.errorJson 400 "No speech detected" none) ∧
      (extractTranscript data ≠ "" →
        sttPOSTAlt env (SttReq.audio f) = SttResult.transcriptJson (extractTranscript data))) := by
  constructor
  · intro h
    constructor
    · intro ht; simp [sttPOST, h, ht]
    · intro ht; simp [sttPOST, h, ht]
  · intro h
    constructor
    · intro ht; simp [sttPOSTAlt, h, ht]
    · intro ht; simp [sttPOSTAlt, h, ht]

/-- Witness for C9 at a provider success carrying a transcript. -/
theorem c9_witness :
    sttPOST sttEnvOk (SttReq.audio audioF) = SttResult.transcriptJson "Hallo Welt" :=
  ((c9_empty_transcript_400 sttEnvOk audioF dgHallo).1 rfl).2 (by decide)

/-! ## Claim C10 — no first-completion content after tool calls -/

/-- Claim C10: on a first-completion stream that finishes with reason
`tool_calls`, every `content` event the handler emits comes from a
follow-up completion stream (for some follow-up message list); the
buffered pre-tool-call content of the first completion is discarded and
never emitted. -/
theorem c10_content_only_followup (env : ChatEnv) (msgs : List Message)
    (chunks : List Chunk) (firstStreamThrows : Bool) (s : String)
    (hPre : ∀ c ∈ chunks.dropLast, c.finish_reason = none)
    (hLast : ∃ c, chunks.getLast? = some c ∧
      c.finish_reason = some FinishReason.tool_calls)
    (hm : SSE.content s ∈ (streamBody env msgs chunks firstStreamThrows).1) :
    ∃ fm, SSE.content s ∈ (env.followUp fm).chunks.filterMap chunkContentEvent := by
  unfold streamBody at hm
  rcases hrc : runChunks env msgs initState chunks with ⟨evs, out⟩
  rw [hrc] at hm
  have hcore : SSE.content s ∈ evs →
      ∃ fm, SSE.content s ∈ (env.followUp fm).chunks.filterMap chunkContentEvent := by
    intro hin
    exact runChunks_content env msgs chunks initState s hPre hLast (by rw [hrc]; exact hin)
  cases out with
  | closedOk => exact hcore hm
  | openEnd =>
    cases firstStreamThrows with
    | true =>
      have hm2 : SSE.content s ∈ evs ++ [SSE.error "Stream error occurred"] := hm
      rcases List.mem_append.mp hm2 with hin | hin
      · exact hcore hin
      · simp at hin
    | false => exact hcore hm
  | threw =>
    have hm2 : SSE.content s ∈ evs ++ [SSE.error "Stream error occurred"] := hm
    rcases List.mem_append.mp hm2 with hin | hin
    · exact hcore hin
    · simp at hin

/-- Witness for C10: a tool-call finish whose follow-up completion
streams the content `Hallo`. -/
theorem c10_witness :
    ∃ fm, SSE.content "Hallo" ∈
      (envFollowHallo.followUp fm).chunks.filterMap chunkContentEvent :=
  c10_content_only_followup envFollowHallo [] chunks10 false "Hallo"
    (by decide) ⟨chunk10, rfl, rfl⟩ (by decide)

end Hall9000
